import Mathlib

/-!
Verification development for the acoustic-dynamics core of the `pace`
dynamical-core repository.

Shallow embedding of:
  * `fv3core/fv3core/stencils/dyn_core.py`
      (`get_nk_heat_dissipation`, `zero_data`, `AcousticDynamics.__init__`,
       `AcousticDynamics.__call__`),
  * `fv3core/fv3core/stencils/fvtp2d.py`
      (`FiniteVolumeTransport` and its edge/interior stencil variants), and
  * `fv3core/fv3core/stencils/pln_halo.py` (`pln_halo`, `PLNHalo`).

Real-valued model fields are embedded as total functions into `ℚ`; the
machine floats of the source carry no overflow/rounding behaviour relevant
to the claims settled here (they concern control flow, sequencing,
argument binding and exact zero/copy semantics, not rounding).

External collaborators of the core (the C/D-grid shallow-water solvers,
vertical Riemann solvers, piecewise-parabolic reconstructions, halo
exchange service, hyperdiffusion and damping kernels) are not part of the
sources under verification; they enter the model as opaque function
parameters, while every piece of control flow, argument plumbing and
arithmetic that *is* in the verified sources is embedded concretely.
-/

/-- A cell-indexed model field: value at integer grid index `(i, j, k)`. -/
abbrev F3 : Type := ℤ → ℤ → ℤ → ℚ

/-- A horizontally-indexed 2d metric field (e.g. cell area). -/
abbrev F2 : Type := ℤ → ℤ → ℚ

/-- The all-zero field, the initial content of freshly made storages
(`utils.make_storage_from_shape` zero-initialises). -/
def zeroF3 : F3 := fun _ _ _ => 0

/-! ## Configuration (`AcousticDynamicsConfig` and the d_sw sub-config)

Only the fields read by the embedded code appear; the remaining namelist
entries are consumed exclusively by the external sub-components. -/

/-- Sub-configuration consumed by `get_nk_heat_dissipation`
(`d_sw.DGridShallowWaterLagrangianDynamicsConfig`). -/
structure DGridShallowWaterLagrangianDynamicsConfig where
  convert_ke : Bool
  vtdm4 : ℚ
  d2_bg_k1 : ℚ
  d2_bg_k2 : ℚ
deriving DecidableEq

/-- Embeds `get_nk_heat_dissipation` (dyn_core.py lines 158-173):
decides whether dissipated kinetic energy is converted to heat over the
full column, not at all, or in 1 or 2 top sponge layers.
`1.0e-4 = 1/10000`, `1.0e-3 = 1/1000`. -/
def get_nk_heat_dissipation
    (config : DGridShallowWaterLagrangianDynamicsConfig) (npz : ℕ) : ℕ :=
  if config.convert_ke = true ∨ config.vtdm4 > mkRat 1 10000 then
    npz
  else
    if config.d2_bg_k1 < mkRat 1 1000 then 0
    else if config.d2_bg_k2 < mkRat 1 1000 then 1
    else 2

/-- The fields of `AcousticDynamicsConfig` read by
`AcousticDynamics.__init__` / `__call__`. -/
structure AcousticDynamicsConfig where
  d_ext : ℚ
  beta : ℚ
  use_logp : Bool
  hydrostatic : Bool
  breed_vortex_inline : Bool
  use_old_omega : Bool
  rf_fast : Bool
  grid_type : ℤ
  nord : ℤ
  d_con : ℚ
  k_split : ℕ
  n_split : ℕ
  d_grid_shallow_water : DGridShallowWaterLagrangianDynamicsConfig
deriving DecidableEq

/-! ## Construction of the scheduler (`AcousticDynamics.__init__`) -/

/-- Message of the assertion at dyn_core.py line 462. -/
def errDExt : String := "d_ext != 0 is not implemented"

/-- Message of the assertion at dyn_core.py line 463. -/
def errBeta : String := "beta != 0 is not implemented"

/-- Message of the assertion at dyn_core.py line 464. -/
def errUseLogp : String := "use_logp=True is not implemented"

/-- Message of the `NotImplementedError` raised at call time
(dyn_core.py lines 933-936). -/
def errUseLogpCall : String := "unimplemented namelist option use_logp=True"

/-- The configuration-derived state the constructor stores on the
scheduler object.  The stencil objects, storages and halo updaters the
real constructor also builds are external components. -/
structure AcousticDynamics where
  config : AcousticDynamicsConfig
  nk_heat_dissipation : ℕ
  do_del2cubed : Bool
deriving DecidableEq

/-- Embeds `AcousticDynamics.__init__` (dyn_core.py lines 426-650):
the three unimplemented-option assertions (lines 462-464, in source
order), the heat-dissipation level count (line 470) and
`_do_del2cubed = nk_heat_dissipation != 0 and d_con > 1.0e-5`
(line 619; `1.0e-5 = 1/100000`). -/
def acousticInit (config : AcousticDynamicsConfig) (npz : ℕ) :
    Except String AcousticDynamics :=
  if config.d_ext ≠ 0 then .error errDExt
  else if config.beta ≠ 0 then .error errBeta
  else if config.use_logp then .error errUseLogp
  else
    let nk := get_nk_heat_dissipation config.d_grid_shallow_water npz
    .ok { config := config
          nk_heat_dissipation := nk
          do_del2cubed := decide (nk ≠ 0) && decide (config.d_con > mkRat 1 100000) }

/-! ## The call trace of `AcousticDynamics.__call__`

`__call__` branches only on configuration, the sub-step index `it` and
`n_map`; no branch of the orchestration inspects field data.  The exact
sequence of operations it issues is therefore a function of
`(config, n_map)` alone and is embedded as a list of events.  Checkpointer
hooks (`_checkpoint_*`) are no-ops without a checkpointer and are not
events. -/

/-- Halo-exchange groups built in `AcousticDynamics._HaloUpdaters`. -/
inductive Halo where
  | q_con_cappa | delp_pt | u_v | w | gz | divgd | uc_vc
  | delp_pt_q_con | zh | pkc | heat_source
deriving DecidableEq

/-- The computational stages `__call__` issues (names follow the source). -/
inductive Op where
  | set_gz | set_pem | c_sw | copy_gz_to_zh | copy_zh_to_gz
  | update_geopotential_height_on_c_grid | riem_solver_c | p_grad_c
  | d_sw | update_height_on_d_grid | riem_solver3 | edge_pe | pk3_halo
  | compute_geopotential | nh_p_grad | rayleigh_damping
  | hyperdiffusion | compute_pkz_tempadjust
deriving DecidableEq

/-- One event of a scheduler call: a halo-exchange start/wait, the
one-shot interface synchronization, the `zero_data` stencil, an in-loop
operation tagged with its sub-step index `it` and the `remap_step` flag,
or a post-loop operation. -/
inductive Ev where
  | haloStart (g : Halo)
  | haloWait (g : Halo)
  | interfaceSync
  | zeroData (first_timestep : Bool)
  | op (name : Op) (it : ℕ) (remap_step : Bool)
  | post (name : Op)
deriving DecidableEq

/-- Events of one acoustic sub-step `it` (dyn_core.py lines 754-980), in
source order.  `remap_step` is set per lines 765-767.  The
`delp__pt__q_con.update()` of line 891 is its start immediately followed
by its wait. -/
def subStepList (c : AcousticDynamicsConfig) (end_step : Bool) (it : ℕ) :
    List Ev :=
  let remap_step := c.breed_vortex_inline || decide (it = c.n_split - 1)
  (if c.hydrostatic then [] else
    [Ev.haloStart Halo.w]
      ++ (if it = 0 then [Ev.op Op.set_gz it remap_step, Ev.haloStart Halo.gz]
          else []))
  ++ (if it = 0 then [Ev.haloWait Halo.delp_pt] else [])
  ++ (if it = c.n_split - 1 ∧ end_step = true ∧ c.use_old_omega = true then
        [Ev.op Op.set_pem it remap_step] else [])
  ++ [Ev.haloWait Halo.u_v]
  ++ (if c.hydrostatic then [] else [Ev.haloWait Halo.w])
  ++ [Ev.op Op.c_sw it remap_step]
  ++ (if 0 < c.nord then [Ev.haloStart Halo.divgd] else [])
  ++ (if c.hydrostatic then [] else
      if it = 0 then [Ev.haloWait Halo.gz, Ev.op Op.copy_gz_to_zh it remap_step]
      else [Ev.op Op.copy_zh_to_gz it remap_step])
  ++ (if c.hydrostatic then [] else
      [Ev.op Op.update_geopotential_height_on_c_grid it remap_step,
       Ev.op Op.riem_solver_c it remap_step])
  ++ [Ev.op Op.p_grad_c it remap_step, Ev.haloStart Halo.uc_vc]
  ++ (if 0 < c.nord then [Ev.haloWait Halo.divgd] else [])
  ++ [Ev.haloWait Halo.uc_vc,
      Ev.op Op.d_sw it remap_step,
      Ev.haloStart Halo.delp_pt_q_con, Ev.haloWait Halo.delp_pt_q_con]
  ++ (if c.hydrostatic then [] else
      [Ev.op Op.update_height_on_d_grid it remap_step,
       Ev.op Op.riem_solver3 it remap_step,
       Ev.haloStart Halo.zh, Ev.haloStart Halo.pkc]
      ++ (if remap_step then [Ev.op Op.edge_pe it remap_step] else [])
      ++ [Ev.op Op.pk3_halo it remap_step,
          Ev.haloWait Halo.zh,
          Ev.op Op.compute_geopotential it remap_step,
          Ev.haloWait Halo.pkc,
          Ev.op Op.nh_p_grad it remap_step])
  ++ (if c.rf_fast then [Ev.op Op.rayleigh_damping it remap_step] else [])
  ++ (if it ≠ c.n_split - 1 then [Ev.haloStart Halo.u_v]
      else if c.grid_type < 4 then [Ev.interfaceSync] else [])

/-- One sub-step, with the call-time failure branch of dyn_core.py lines
933-936: in nonhydrostatic mode with `use_logp` the sub-step raises
`NotImplementedError` (in the source the raise occurs inside the
nonhydrostatic block, between `pkc.start()` and `pk3_halo`; no theorem
below observes the events preceding a raise, so the error path carries no
partial trace). -/
def subStepEvents (c : AcousticDynamicsConfig) (end_step : Bool) (it : ℕ) :
    Except String (List Ev) :=
  if c.use_logp = true ∧ c.hydrostatic = false then .error errUseLogpCall
  else .ok (subStepList c end_step it)

/-- The acoustic loop (`for it in dace_nounroll(range(n_split))`,
dyn_core.py line 754) over an explicit list of sub-step indices. -/
def loopEvents (c : AcousticDynamicsConfig) (end_step : Bool) :
    List ℕ → Except String (List Ev)
  | [] => .ok []
  | it :: rest =>
    match subStepEvents c end_step it, loopEvents c end_step rest with
    | .ok t, .ok ts => .ok (t ++ ts)
    | .error e, _ => .error e
    | .ok _, .error e => .error e

/-- Error-free form of the loop trace. -/
def loopList (c : AcousticDynamicsConfig) (end_step : Bool) :
    List ℕ → List Ev
  | [] => []
  | it :: rest => subStepList c end_step it ++ loopList c end_step rest

/-- Events before the acoustic loop (dyn_core.py lines 732-748): three
halo starts, one wait, then the `zero_data` stencil with
`first_timestep = (n_map == 1)`. -/
def preList (n_map : ℕ) : List Ev :=
  [Ev.haloStart Halo.q_con_cappa, Ev.haloStart Halo.delp_pt,
   Ev.haloStart Halo.u_v, Ev.haloWait Halo.q_con_cappa,
   Ev.zeroData (decide (n_map = 1))]

/-- Events after the acoustic loop (dyn_core.py lines 982-997): when
`_do_del2cubed`, exchange and hyperdiffuse `heat_source`, and in
nonhydrostatic mode apply the temperature adjustment. -/
def postList (ad : AcousticDynamics) : List Ev :=
  if ad.do_del2cubed then
    [Ev.haloStart Halo.heat_source, Ev.haloWait Halo.heat_source,
     Ev.post Op.hyperdiffusion]
    ++ (if ad.config.hydrostatic then [] else [Ev.post Op.compute_pkz_tempadjust])
  else []

/-- Embeds the event sequence of one `AcousticDynamics.__call__`
(dyn_core.py lines 714-998); `end_step = (n_map == k_split)` per
line 723. -/
def acousticSchedule (ad : AcousticDynamics) (n_map : ℕ) :
    Except String (List Ev) :=
  let c := ad.config
  let end_step := decide (n_map = c.k_split)
  match loopEvents c end_step (List.range c.n_split) with
  | .error e => .error e
  | .ok loopTr => .ok (preList n_map ++ loopTr ++ postList ad)

/-- The event list of a call, `[]` if the call raises. -/
def scheduleEvents (ad : AcousticDynamics) (n_map : ℕ) : List Ev :=
  match acousticSchedule ad n_map with
  | .ok t => t
  | .error _ => []

/-! ## The state effect of a call

The full-domain allocation sizes (compute domain plus halos, per the
`grid_indexing.domain_full()` / `origin_full()` over which `_zero_data`
is compiled, dyn_core.py lines 601-605). -/

/-- Full-domain extents: indices run over `[0, nx) × [0, ny) × [0, nz)`. -/
structure Dims where
  nx : ℤ
  ny : ℤ
  nz : ℤ
deriving DecidableEq

/-- Membership in the full stencil domain of `_zero_data`. -/
def inFullDomain (d : Dims) (i j k : ℤ) : Prop :=
  0 ≤ i ∧ i < d.nx ∧ 0 ≤ j ∧ j < d.ny ∧ 0 ≤ k ∧ k < d.nz

instance (d : Dims) (i j k : ℤ) : Decidable (inFullDomain d i j k) :=
  inferInstanceAs (Decidable (_ ∧ _))

/-- The horizontal region `region[3:-3, 3:-3]` of the full domain. -/
def inInterior33 (d : Dims) (i j : ℤ) : Prop :=
  3 ≤ i ∧ i < d.nx - 3 ∧ 3 ≤ j ∧ j < d.ny - 3

instance (d : Dims) (i j : ℤ) : Decidable (inInterior33 d i j) :=
  inferInstanceAs (Decidable (_ ∧ _))

/-- Embeds the `zero_data` stencil (dyn_core.py lines 45-72): over the
full domain the flux/Courant accumulators are zeroed unconditionally;
under `first_timestep`, `heat_source` and `diss_estd` are zeroed on the
horizontal region `[3:-3, 3:-3]` (all vertical levels).  Outputs are
returned in declaration order. -/
def zero_data (d : Dims)
    (mfxd mfyd cxd cyd heat_source diss_estd : F3)
    (first_timestep : Bool) : F3 × F3 × F3 × F3 × F3 × F3 :=
  (fun i j k => if inFullDomain d i j k then 0 else mfxd i j k,
   fun i j k => if inFullDomain d i j k then 0 else mfyd i j k,
   fun i j k => if inFullDomain d i j k then 0 else cxd i j k,
   fun i j k => if inFullDomain d i j k then 0 else cyd i j k,
   fun i j k =>
     if first_timestep = true ∧ inFullDomain d i j k ∧ inInterior33 d i j
     then 0 else heat_source i j k,
   fun i j k =>
     if first_timestep = true ∧ inFullDomain d i j k ∧ inInterior33 d i j
     then 0 else diss_estd i j k)

/-- The mutable state a call operates on: the accumulator fields
`zero_data` touches, concretely, and the remaining prognostic fields and
temporaries as an indexed family (their evolution is performed by the
external kernels). -/
structure DynState where
  mfxd : F3
  mfyd : F3
  cxd : F3
  cyd : F3
  heat_source : F3
  diss_estd : F3
  rest : ℕ → F3

/-- Interpretation of one event on the state: the `zero_data` stencil is
the concrete embedding above; every other event is delegated to the
kernel interpretation `K` (stencil executor / halo-exchange service /
external sub-components). -/
def dynStep (d : Dims) (K : Ev → DynState → DynState)
    (s : DynState) (e : Ev) : DynState :=
  match e with
  | Ev.zeroData first_timestep =>
    let z := zero_data d s.mfxd s.mfyd s.cxd s.cyd s.heat_source s.diss_estd
      first_timestep
    { s with mfxd := z.1, mfyd := z.2.1, cxd := z.2.2.1, cyd := z.2.2.2.1,
             heat_source := z.2.2.2.2.1, diss_estd := z.2.2.2.2.2 }
  | e => K e s

/-- Embeds `AcousticDynamics.__call__` (dyn_core.py lines 714-998): the
scheduled events applied in order to the state, or the call-time raise.
The call is a pure function of the scheduler value, the kernel
interpretation, the entry state and `n_map`. -/
def acousticCall (d : Dims) (K : Ev → DynState → DynState)
    (ad : AcousticDynamics) (s : DynState) (n_map : ℕ) :
    Except String DynState :=
  match acousticSchedule ad n_map with
  | .error e => .error e
  | .ok tr => .ok (tr.foldl (dynStep d K) s)

/-! ## Horizontal transport (`fvtp2d.py`, `FiniteVolumeTransport`) -/

/-- A stencil index space: origin `(i0, j0, k0)` and extent
`(ni, nj, nk)`. -/
structure Rect where
  i0 : ℤ
  j0 : ℤ
  k0 : ℤ
  ni : ℤ
  nj : ℤ
  nk : ℤ
deriving DecidableEq

/-- Whether `(i, j, k)` lies in the index space. -/
def Rect.memb (r : Rect) (i j k : ℤ) : Bool :=
  decide (r.i0 ≤ i ∧ i < r.i0 + r.ni ∧ r.j0 ≤ j ∧ j < r.j0 + r.nj ∧
          r.k0 ≤ k ∧ k < r.k0 + r.nk)

/-- The grid-indexing data the fvtp2d constructors consume: compute-domain
origin `(isc, jsc, ksc)`, compute-domain extent `(di, dj, dk)` and the
halo depth. -/
structure GridIndexing where
  n_halo : ℤ
  isc : ℤ
  jsc : ℤ
  ksc : ℤ
  di : ℤ
  dj : ℤ
  dk : ℤ
deriving DecidableEq

/-- `origin_compute(add=a)` paired with `domain_compute(add=b)`. -/
def GridIndexing.rect_compute (g : GridIndexing)
    (a b : ℤ × ℤ × ℤ) : Rect :=
  ⟨g.isc + a.1, g.jsc + a.2.1, g.ksc + a.2.2,
   g.di + b.1, g.dj + b.2.1, g.dk + b.2.2⟩

/-- `origin_full(add=a)` paired with `domain_full(add=b)`: the full domain
adds the halo on both horizontal sides. -/
def GridIndexing.rect_full (g : GridIndexing)
    (a b : ℤ × ℤ × ℤ) : Rect :=
  ⟨g.isc - g.n_halo + a.1, g.jsc - g.n_halo + a.2.1, g.ksc + a.2.2,
   g.di + 2 * g.n_halo + b.1, g.dj + 2 * g.n_halo + b.2.1, g.dk + b.2.2⟩

/-- Index space of `y_piecewise_parabolic_inner`
(fvtp2d.py lines 425-431). -/
def rect_y_inner (g : GridIndexing) : Rect :=
  g.rect_compute (-g.n_halo, 0, 0) (1 + 2 * g.n_halo, 1, 1)

/-- Index space of `x_piecewise_parabolic_inner`
(fvtp2d.py lines 444-450). -/
def rect_x_inner (g : GridIndexing) : Rect :=
  g.rect_compute (0, -g.n_halo, 0) (1, 1 + 2 * g.n_halo, 1)

/-- Index space of the outer reconstructions and of `final_fluxes`
(origin_compute, domain_compute + (1,1,1)). -/
def rect_outer (g : GridIndexing) : Rect :=
  g.rect_compute (0, 0, 0) (1, 1, 1)

/-- Index space of `q_i_stencil` (fvtp2d.py lines 432-436). -/
def rect_q_i (g : GridIndexing) : Rect :=
  g.rect_full (0, 3, 0) (0, -3, 1)

/-- Index space of `q_j_stencil` (fvtp2d.py lines 451-455). -/
def rect_q_j (g : GridIndexing) : Rect :=
  g.rect_full (3, 0, 0) (-3, 0, 1)

/-- Embeds `q_i_stencil` (fvtp2d.py lines 104-126) over its index space:
`fyy = y_area_flux * q_advected_along_y` and
`q_i = (q*area + fyy - fyy[0,1,0]) / (area + y_area_flux -
y_area_flux[0,1,0])`; outside the space the output storage keeps its
previous content. -/
def q_i_stencil (r : Rect) (q : F3) (area : F2)
    (y_area_flux q_advected_along_y q_i : F3) : F3 :=
  fun i j k =>
    if r.memb i j k then
      (q i j k * area i j
        + y_area_flux i j k * q_advected_along_y i j k
        - y_area_flux i (j + 1) k * q_advected_along_y i (j + 1) k)
      / (area i j + y_area_flux i j k - y_area_flux i (j + 1) k)
    else q_i i j k

/-- Embeds `q_j_stencil` (fvtp2d.py lines 136-154):
`fx1 = x_area_flux * fx2`, denominator
`apply_x_flux_divergence(area, x_area_flux) = area + x_area_flux -
x_area_flux[1,0,0]`. -/
def q_j_stencil (r : Rect) (q : F3) (area : F2)
    (x_area_flux fx2 q_j : F3) : F3 :=
  fun i j k =>
    if r.memb i j k then
      (q i j k * area i j
        + x_area_flux i j k * fx2 i j k
        - x_area_flux (i + 1) j k * fx2 (i + 1) j k)
      / (area i j + x_area_flux i j k - x_area_flux (i + 1) j k)
    else q_j i j k

/-- Embeds `final_fluxes` (fvtp2d.py lines 162-201): on
`region[:, :-1]` of its index space,
`x_flux = 0.5*(q_advected_y_x_advected_mean + q_x_advected_mean) *
x_unit_flux`, and symmetrically on `region[:-1, :]` for `y_flux`. -/
def final_fluxes (r : Rect)
    (q_advected_y_x_advected_mean q_x_advected_mean
     q_advected_x_y_advected_mean q_y_advected_mean
     x_unit_flux y_unit_flux x_flux y_flux : F3) : F3 × F3 :=
  (fun i j k =>
     if r.memb i j k && decide (j < r.j0 + r.nj - 1) then
       1 / 2 * (q_advected_y_x_advected_mean i j k + q_x_advected_mean i j k)
         * x_unit_flux i j k
     else x_flux i j k,
   fun i j k =>
     if r.memb i j k && decide (i < r.i0 + r.ni - 1) then
       1 / 2 * (q_advected_x_y_advected_mean i j k + q_y_advected_mean i j k)
         * y_unit_flux i j k
     else y_flux i j k)

/-- The external kernels fvtp2d invokes: the 1d piecewise-parabolic
reconstructions of `xppm.py`/`yppm.py` (an operator taking the
reconstruction order, its compiled index space, the grid spacing, the
advected field, the Courant numbers and the previous output storage),
the gtscript interior flux functions (taking the `jord`/`iord`/`mord`
externals of the fused stencil), and the `DelnFlux` damper. -/
structure FVTPKernels where
  xppm : ℤ → Rect → F2 → F3 → F3 → F3 → F3
  yppm : ℤ → Rect → F2 → F3 → F3 → F3 → F3
  compute_x_flux_interior : ℤ → ℤ → ℤ → F3 → F3 → F3
  compute_y_flux_interior : ℤ → ℤ → ℤ → F3 → F3 → F3
  delnflux : F3 → F3 → F3 → Option F3 → F3 × F3

/-- Embeds `_FiniteVolumeTransportEdgeStencils.call_stencils`
(fvtp2d.py lines 469-523), in source order; the six scratch storages of
the constructor are zero-initialised. -/
def edge_call_stencils (ker : FVTPKernels) (g : GridIndexing)
    (area dxa dya : F2) (ord_inner ord_outer : ℤ)
    (q_x_differentiable q_y_differentiable : F3)
    (crx cry x_area_flux y_area_flux x_unit_flux y_unit_flux
     q_x_flux q_y_flux : F3) : F3 × F3 :=
  let q_y_advected_mean :=
    ker.yppm ord_inner (rect_y_inner g) dya q_y_differentiable cry zeroF3
  let q_advected_y :=
    q_i_stencil (rect_q_i g) q_y_differentiable area y_area_flux
      q_y_advected_mean zeroF3
  let q_advected_y_x_advected_mean :=
    ker.xppm ord_outer (rect_outer g) dxa q_advected_y crx zeroF3
  let q_x_advected_mean :=
    ker.xppm ord_inner (rect_x_inner g) dxa q_x_differentiable crx zeroF3
  let q_advected_x :=
    q_j_stencil (rect_q_j g) q_x_differentiable area x_area_flux
      q_x_advected_mean zeroF3
  let q_advected_x_y_advected_mean :=
    ker.yppm ord_outer (rect_outer g) dya q_advected_x cry zeroF3
  final_fluxes (rect_outer g)
    q_advected_y_x_advected_mean q_x_advected_mean
    q_advected_x_y_advected_mean q_y_advected_mean
    x_unit_flux y_unit_flux q_x_flux q_y_flux

/-- Embeds `finite_volume_transport_interior` and its wrapper stencil
(fvtp2d.py lines 34-101), compiled with externals
`jord = ord_inner`, `iord = ord_outer`, `mord = abs(ord_inner)` over the
index space `r` (origin_compute, domain_compute + (1,1,1)). -/
def finite_volume_transport_interior (ker : FVTPKernels)
    (jord iord mord : ℤ) (r : Rect) (area : F2)
    (q_x_differentiable q_y_differentiable : F3)
    (crx cry x_area_flux y_area_flux x_unit_flux y_unit_flux
     x_flux y_flux : F3) : F3 × F3 :=
  let q_y_advected_mean :=
    ker.compute_y_flux_interior jord iord mord q_y_differentiable cry
  let q_advected_y : F3 := fun i j k =>
    (q_y_differentiable i j k * area i j
      + y_area_flux i j k * q_y_advected_mean i j k
      - y_area_flux i (j + 1) k * q_y_advected_mean i (j + 1) k)
    / (area i j + y_area_flux i j k - y_area_flux i (j + 1) k)
  let q_advected_y_x_advected_mean :=
    ker.compute_x_flux_interior jord iord mord q_advected_y crx
  let q_x_advected_mean :=
    ker.compute_x_flux_interior jord iord mord q_x_differentiable crx
  let q_advected_x : F3 := fun i j k =>
    (q_x_differentiable i j k * area i j
      + x_area_flux i j k * q_x_advected_mean i j k
      - x_area_flux (i + 1) j k * q_x_advected_mean (i + 1) j k)
    / (area i j + x_area_flux i j k - x_area_flux (i + 1) j k)
  let q_advected_x_y_advected_mean :=
    ker.compute_y_flux_interior jord iord mord q_advected_x cry
  (fun i j k =>
     if r.memb i j k && decide (j < r.j0 + r.nj - 1) then
       1 / 2 * (q_advected_y_x_advected_mean i j k + q_x_advected_mean i j k)
         * x_unit_flux i j k
     else x_flux i j k,
   fun i j k =>
     if r.memb i j k && decide (i < r.i0 + r.ni - 1) then
       1 / 2 * (q_advected_x_y_advected_mean i j k + q_y_advected_mean i j k)
         * y_unit_flux i j k
     else y_flux i j k)

/-- Which stencil variant the constructor selected, with the
reconstruction orders it fixed (`ord_inner`, `ord_outer`). -/
inductive FVTPVariant where
  | interior (ord_inner ord_outer : ℤ)
  | edge (ord_inner ord_outer : ℤ)
deriving DecidableEq

/-- The configuration-derived state of a constructed
`FiniteVolumeTransport`. -/
structure FiniteVolumeTransport where
  variant : FVTPVariant
  delnflux_enabled : Bool
deriving DecidableEq

/-- Message for the `assert hord == 8` of
`_FiniteVolumeTransportInteriorStencils.__init__` (fvtp2d.py line 541). -/
def errInteriorHord : String := "assert hord == 8"

/-- Embeds `FiniteVolumeTransport.__init__` (fvtp2d.py lines 268-301):
the tile-interior flag selects the variant; the interior variant asserts
`hord == 8`; both variants set `ord_outer = hord` and
`ord_inner = 8 if hord == 10 else hord` (lines 423-424 and 540-542); the
`DelnFlux` damper is built exactly when both `nord` and `damp_c` are
given (lines 290-301). -/
def fvtp_init (tile_interior : Bool) (hord : ℤ)
    (nord : Option ℤ) (damp_c : Option ℚ) :
    Except String FiniteVolumeTransport :=
  if tile_interior then
    if hord = 8 then
      .ok { variant := FVTPVariant.interior (if hord = 10 then 8 else hord) hord
            delnflux_enabled := nord.isSome && damp_c.isSome }
    else .error errInteriorHord
  else
    .ok { variant := FVTPVariant.edge (if hord = 10 then 8 else hord) hord
          delnflux_enabled := nord.isSome && damp_c.isSome }

/-- Message of the `ValueError` of fvtp2d.py lines 347-354. -/
def errMassFlux : String :=
  "when damping is enabled, mass must be given if mass flux is given"

/-- Embeds `FiniteVolumeTransport.__call__` (fvtp2d.py lines 303-377).
The result is `(raised?, q_x_flux, q_y_flux)`: on the usage-error branch
the call raises before any stencil runs, so the flux storages are
returned unchanged; otherwise the unit fluxes default to the area fluxes
unless mass fluxes are given, the selected variant's stencils run, and
`DelnFlux` is applied when enabled. -/
def fvtp_call (ker : FVTPKernels) (g : GridIndexing) (area dxa dya : F2)
    (f : FiniteVolumeTransport)
    (q_base q_x_differentiable q_y_differentiable : F3)
    (crx cry x_area_flux y_area_flux q_x_flux q_y_flux : F3)
    (x_mass_flux y_mass_flux mass : Option F3) :
    Option String × F3 × F3 :=
  if f.delnflux_enabled && mass.isNone
      && (x_mass_flux.isSome || y_mass_flux.isSome) then
    (some errMassFlux, q_x_flux, q_y_flux)
  else
    let x_unit_flux := x_mass_flux.getD x_area_flux
    let y_unit_flux := y_mass_flux.getD y_area_flux
    let fluxes :=
      match f.variant with
      | FVTPVariant.interior ord_inner ord_outer =>
        finite_volume_transport_interior ker ord_inner ord_outer
          (abs ord_inner) (rect_outer g) area
          q_x_differentiable q_y_differentiable crx cry
          x_area_flux y_area_flux x_unit_flux y_unit_flux q_x_flux q_y_flux
      | FVTPVariant.edge ord_inner ord_outer =>
        edge_call_stencils ker g area dxa dya ord_inner ord_outer
          q_x_differentiable q_y_differentiable crx cry
          x_area_flux y_area_flux x_unit_flux y_unit_flux q_x_flux q_y_flux
    if f.delnflux_enabled then
      let damped := ker.delnflux q_base fluxes.1 fluxes.2 mass
      (none, damped.1, damped.2)
    else (none, fluxes.1, fluxes.2)

/-! ## `pln_halo.py`: the `pln_halo` stencil and the `PLNHalo` wrapper

The stencil declares parameters in the order
`(pet, ptop, pk3, delp)` (pln_halo.py lines 5-7); the wrapper invokes it
as `self._pln_halo(self._pet_tmp, delp, pk3, ptop)` (line 62), i.e.
positionally binding the field `delp` to the `ptop` slot and the scalar
`ptop` to the `delp` slot.  To give the swapped, ill-typed invocation a
semantics the embedding genericises both slots to per-column level
functions: a scalar argument becomes the constant level function, a 3d
field argument becomes its column at `(i, j)`.  The `log` applied to the
accumulated edge pressure is gt4py's, embedded as the opaque parameter
`plog`.  A column has levels `0 .. nz` (the wrapper compiles the stencil
over `domain_full(add=(0, 0, 1))`). -/

/-- A field over columns with `ℕ`-indexed vertical levels. -/
abbrev ColF : Type := ℤ → ℤ → ℕ → ℚ

/-- The four horizontal strips of the stencil's `region` lists
(pln_halo.py lines 12-16 and 20-24): two-cell-deep bands west, east,
south and north of the compute domain `[local_is, local_ie] ×
[local_js, local_je]`.  The fourth region is written in the source as
`region[local_is - 2 : local_ie + 3, local_je + 1, local_je + 3]`
(a comma where a colon is meant); it is embedded as the evidently
intended interval `local_je + 1 : local_je + 3`. -/
def pln_halo_region (local_is local_ie local_js local_je : ℤ)
    (i j : ℤ) : Bool :=
  decide
    ((local_is - 2 ≤ i ∧ i < local_is ∧ local_js ≤ j ∧ j < local_je + 1)
     ∨ (local_ie + 1 ≤ i ∧ i < local_ie + 3 ∧ local_js ≤ j ∧ j < local_je + 1)
     ∨ (local_is - 2 ≤ i ∧ i < local_ie + 3 ∧ local_js - 2 ≤ j ∧ j < local_js)
     ∨ (local_is - 2 ≤ i ∧ i < local_ie + 3 ∧ local_je + 1 ≤ j ∧ j < local_je + 3))

/-- The running `pet` accumulator of one column of the `pln_halo`
stencil's `computation(FORWARD)`: at level 0, `pet = ptop` (the value of
whatever occupies the `ptop` slot); at level `k+1`,
`pet = pet + delp[0, 0, -1]` (the level-`k` value of whatever occupies
the `delp` slot). -/
def pln_halo_pet (ptop_arg delp_arg : ℕ → ℚ) : ℕ → ℚ
  | 0 => ptop_arg 0
  | k + 1 => pln_halo_pet ptop_arg delp_arg k + delp_arg k

/-- Embeds the `pln_halo` stencil definition (pln_halo.py lines 5-27)
with its declared parameter order `(pet, ptop, pk3, delp)`: inside the
halo strips the 2d accumulator `pet` is seeded from the `ptop` slot at
the top interval and accumulates the `delp` slot downward, and
`pk3 = log(pet)` is written at levels `1 .. nz`; outside the strips (and
at level 0 for `pk3`) the storages are unchanged. -/
def pln_halo (local_is local_ie local_js local_je : ℤ) (nz : ℕ)
    (plog : ℚ → ℚ) (pet : ℤ → ℤ → ℚ)
    (ptop_arg : ℤ → ℤ → ℕ → ℚ) (pk3 : ColF)
    (delp_arg : ℤ → ℤ → ℕ → ℚ) :
    (ℤ → ℤ → ℚ) × ColF :=
  (fun i j =>
     if pln_halo_region local_is local_ie local_js local_je i j then
       pln_halo_pet (ptop_arg i j) (delp_arg i j) nz
     else pet i j,
   fun i j k =>
     if pln_halo_region local_is local_ie local_js local_je i j
         && decide (1 ≤ k) && decide (k ≤ nz) then
       plog (pln_halo_pet (ptop_arg i j) (delp_arg i j) k)
     else pk3 i j k)

/-- Embeds the wrapper call `PLNHalo.__call_(pk3, delp, ptop)`
(pln_halo.py lines 52-62): it invokes the stencil as
`self._pln_halo(self._pet_tmp, delp, pk3, ptop)`, so positionally the
field `delp` occupies the stencil's `ptop` slot (read at level 0 without
offset) and the scalar `ptop` occupies the `delp` slot (constant over
levels). -/
def PLNHalo_call (local_is local_ie local_js local_je : ℤ) (nz : ℕ)
    (plog : ℚ → ℚ) (pet_tmp : ℤ → ℤ → ℚ) (pk3 : ColF) (delp : ColF)
    (ptop : ℚ) : (ℤ → ℤ → ℚ) × ColF :=
  pln_halo local_is local_ie local_js local_je nz plog pet_tmp
    (fun i j k => delp i j k) pk3 (fun _ _ _ => ptop)

/-- The invocation as claim C8 describes it (arguments passed in the
order the stencil definition declares them): the scalar `ptop` in the
`ptop` slot seeding the top interval, the field `delp` in the `delp`
slot being accumulated.  This definition follows the claim's words, for
comparison against `PLNHalo_call`, which follows the source. -/
def PLNHalo_call_as_claimed (local_is local_ie local_js local_je : ℤ)
    (nz : ℕ) (plog : ℚ → ℚ) (pet_tmp : ℤ → ℤ → ℚ) (pk3 : ColF)
    (delp : ColF) (ptop : ℚ) : (ℤ → ℤ → ℚ) × ColF :=
  pln_halo local_is local_ie local_js local_je nz plog pet_tmp
    (fun _ _ _ => ptop) pk3 (fun i j k => delp i j k)

/-! ## Trace bookkeeping helpers -/

/-- Whether an event is the in-loop operation named `o`. -/
def isOpEv (o : Op) : Ev → Bool
  | Ev.op n _ _ => decide (n = o)
  | _ => false

/-- Whether an event is the post-loop operation named `o`. -/
def isPostEv (o : Op) : Ev → Bool
  | Ev.post n => decide (n = o)
  | _ => false

/-- Number of occurrences of the in-loop operation `o` in a trace. -/
def countOp (o : Op) (l : List Ev) : ℕ := (l.filter (isOpEv o)).length

/-- Number of occurrences of the post-loop operation `o` in a trace. -/
def countPost (o : Op) (l : List Ev) : ℕ := (l.filter (isPostEv o)).length

@[simp] lemma isOpEv_op (o n : Op) (it : ℕ) (r : Bool) :
    isOpEv o (Ev.op n it r) = decide (n = o) := rfl

@[simp] lemma isOpEv_haloStart (o : Op) (g : Halo) :
    isOpEv o (Ev.haloStart g) = false := rfl

@[simp] lemma isOpEv_haloWait (o : Op) (g : Halo) :
    isOpEv o (Ev.haloWait g) = false := rfl

@[simp] lemma isOpEv_interfaceSync (o : Op) :
    isOpEv o Ev.interfaceSync = false := rfl

@[simp] lemma isOpEv_zeroData (o : Op) (b : Bool) :
    isOpEv o (Ev.zeroData b) = false := rfl

@[simp] lemma isOpEv_post (o n : Op) : isOpEv o (Ev.post n) = false := rfl

@[simp] lemma isPostEv_op (o n : Op) (it : ℕ) (r : Bool) :
    isPostEv o (Ev.op n it r) = false := rfl

@[simp] lemma isPostEv_haloStart (o : Op) (g : Halo) :
    isPostEv o (Ev.haloStart g) = false := rfl

@[simp] lemma isPostEv_haloWait (o : Op) (g : Halo) :
    isPostEv o (Ev.haloWait g) = false := rfl

@[simp] lemma isPostEv_interfaceSync (o : Op) :
    isPostEv o Ev.interfaceSync = false := rfl

@[simp] lemma isPostEv_zeroData (o : Op) (b : Bool) :
    isPostEv o (Ev.zeroData b) = false := rfl

@[simp] lemma isPostEv_post (o n : Op) :
    isPostEv o (Ev.post n) = decide (n = o) := rfl

@[simp] lemma countOp_nil (o : Op) : countOp o [] = 0 := rfl

@[simp] lemma countOp_append (o : Op) (l₁ l₂ : List Ev) :
    countOp o (l₁ ++ l₂) = countOp o l₁ + countOp o l₂ := by
  simp [countOp, List.filter_append]

@[simp] lemma countOp_cons (o : Op) (e : Ev) (l : List Ev) :
    countOp o (e :: l) = (if isOpEv o e then 1 else 0) + countOp o l := by
  by_cases h : isOpEv o e <;> simp [countOp, List.filter_cons, h, Nat.add_comm]

@[simp] lemma countPost_nil (o : Op) : countPost o [] = 0 := rfl

@[simp] lemma countPost_append (o : Op) (l₁ l₂ : List Ev) :
    countPost o (l₁ ++ l₂) = countPost o l₁ + countPost o l₂ := by
  simp [countPost, List.filter_append]

@[simp] lemma countPost_cons (o : Op) (e : Ev) (l : List Ev) :
    countPost o (e :: l) = (if isPostEv o e then 1 else 0) + countPost o l := by
  by_cases h : isPostEv o e <;> simp [countPost, List.filter_cons, h, Nat.add_comm]

lemma countOp_ite (o : Op) (p : Prop) [Decidable p] (l₁ l₂ : List Ev) :
    countOp o (if p then l₁ else l₂)
      = if p then countOp o l₁ else countOp o l₂ := by
  split <;> rfl

lemma countPost_ite (o : Op) (p : Prop) [Decidable p] (l₁ l₂ : List Ev) :
    countPost o (if p then l₁ else l₂)
      = if p then countPost o l₁ else countPost o l₂ := by
  split <;> rfl

lemma not_mem_of_countOp_zero {o : Op} {it : ℕ} {r : Bool} {l : List Ev}
    (h : countOp o l = 0) : Ev.op o it r ∉ l := by
  intro hm
  have hne : l.filter (isOpEv o) ≠ [] :=
    List.ne_nil_of_mem (List.mem_filter.mpr ⟨hm, by simp⟩)
  exact hne (List.length_eq_zero.mp h)

lemma not_mem_of_countPost_zero {o : Op} {l : List Ev}
    (h : countPost o l = 0) : Ev.post o ∉ l := by
  intro hm
  have hne : l.filter (isPostEv o) ≠ [] :=
    List.ne_nil_of_mem (List.mem_filter.mpr ⟨hm, by simp⟩)
  exact hne (List.length_eq_zero.mp h)

lemma mem_ite_list {α : Type} {p : Prop} [Decidable p] {a : α}
    {l₁ l₂ : List α} :
    (a ∈ if p then l₁ else l₂) ↔ (p ∧ a ∈ l₁) ∨ (¬p ∧ a ∈ l₂) := by
  split <;> simp_all

/-! ## Inversion and shape lemmas -/

lemma acousticInit_ok {c : AcousticDynamicsConfig} {npz : ℕ}
    {ad : AcousticDynamics} (h : acousticInit c npz = .ok ad) :
    c.d_ext = 0 ∧ c.beta = 0 ∧ c.use_logp = false ∧ ad.config = c ∧
    ad.nk_heat_dissipation
      = get_nk_heat_dissipation c.d_grid_shallow_water npz ∧
    ad.do_del2cubed
      = (decide (get_nk_heat_dissipation c.d_grid_shallow_water npz ≠ 0)
          && decide (c.d_con > mkRat 1 100000)) := by
  unfold acousticInit at h
  split_ifs at h with h1 h2 h3
  cases h
  exact ⟨by simpa using h1, by simpa using h2, by simpa using h3,
         rfl, rfl, rfl⟩

lemma subStepEvents_eq {c : AcousticDynamicsConfig}
    (h : c.use_logp = false) (e : Bool) (it : ℕ) :
    subStepEvents c e it = .ok (subStepList c e it) := by
  simp [subStepEvents, h]

lemma loopEvents_eq {c : AcousticDynamicsConfig}
    (h : c.use_logp = false) (e : Bool) :
    ∀ its : List ℕ, loopEvents c e its = .ok (loopList c e its) := by
  intro its
  induction its with
  | nil => rfl
  | cons it rest ih => simp [loopEvents, subStepEvents_eq h, ih, loopList]

lemma acousticSchedule_eq {ad : AcousticDynamics}
    (h : ad.config.use_logp = false) (n_map : ℕ) :
    acousticSchedule ad n_map
      = .ok (preList n_map
          ++ loopList ad.config (decide (n_map = ad.config.k_split))
               (List.range ad.config.n_split)
          ++ postList ad) := by
  simp [acousticSchedule, loopEvents_eq h]

lemma scheduleEvents_eq {ad : AcousticDynamics}
    (h : ad.config.use_logp = false) (n_map : ℕ) :
    scheduleEvents ad n_map
      = preList n_map
          ++ loopList ad.config (decide (n_map = ad.config.k_split))
               (List.range ad.config.n_split)
          ++ postList ad := by
  simp [scheduleEvents, acousticSchedule_eq h]

lemma subStepList_countOp_d_sw (c : AcousticDynamicsConfig) (e : Bool)
    (it : ℕ) : countOp Op.d_sw (subStepList c e it) = 1 := by
  simp [subStepList, countOp_ite]

lemma subStepList_countPost (o : Op) (c : AcousticDynamicsConfig) (e : Bool)
    (it : ℕ) : countPost o (subStepList c e it) = 0 := by
  simp [subStepList, countPost_ite]

lemma loopList_countOp_d_sw (c : AcousticDynamicsConfig) (e : Bool) :
    ∀ its : List ℕ, countOp Op.d_sw (loopList c e its) = its.length := by
  intro its
  induction its with
  | nil => rfl
  | cons it rest ih =>
    simp only [loopList, countOp_append, subStepList_countOp_d_sw, ih,
      List.length_cons]
    omega

lemma loopList_countPost (o : Op) (c : AcousticDynamicsConfig) (e : Bool) :
    ∀ its : List ℕ, countPost o (loopList c e its) = 0 := by
  intro its
  induction its with
  | nil => rfl
  | cons it rest ih =>
    simp [loopList, subStepList_countPost, ih]

lemma preList_countOp (o : Op) (n_map : ℕ) : countOp o (preList n_map) = 0 := by
  simp [preList]

lemma preList_countPost (o : Op) (n_map : ℕ) :
    countPost o (preList n_map) = 0 := by
  simp [preList]

lemma postList_countOp (o : Op) (ad : AcousticDynamics) :
    countOp o (postList ad) = 0 := by
  simp [postList, countOp_ite, countOp_append]

lemma postList_countPost_hyper (ad : AcousticDynamics) :
    countPost Op.hyperdiffusion (postList ad)
      = if ad.do_del2cubed then 1 else 0 := by
  by_cases h : ad.do_del2cubed <;> simp [postList, h, countPost_ite]

lemma edge_pe_mem_subStepList {c : AcousticDynamicsConfig} {e : Bool}
    {it' it : ℕ} {r : Bool}
    (h : Ev.op Op.edge_pe it r ∈ subStepList c e it') :
    it = it' ∧ (c.breed_vortex_inline || decide (it' = c.n_split - 1)) = true := by
  unfold subStepList at h
  simp only [mem_ite_list, List.mem_append, List.mem_cons, List.mem_singleton,
    List.not_mem_nil, Ev.op.injEq, and_false, false_and, and_true, true_and,
    or_false, false_or, reduceCtorEq] at h
  exact ⟨h.2.2.1, h.2.1⟩

lemma mem_loopList {c : AcousticDynamicsConfig} {e : Bool} {ev : Ev} :
    ∀ {its : List ℕ}, ev ∈ loopList c e its →
      ∃ it', it' ∈ its ∧ ev ∈ subStepList c e it' := by
  intro its
  induction its with
  | nil => intro h; cases h
  | cons it rest ih =>
    intro h
    rcases List.mem_append.mp h with h1 | h2
    · exact ⟨it, by simp, h1⟩
    · obtain ⟨it', hm, he⟩ := ih h2
      exact ⟨it', by simp [hm], he⟩

instance {ε α : Type} [DecidableEq ε] [DecidableEq α] :
    DecidableEq (Except ε α) := fun x y =>
  match x, y with
  | .error a, .error b =>
    if h : a = b then .isTrue (by rw [h]) else .isFalse (by simp [h])
  | .ok a, .ok b =>
    if h : a = b then .isTrue (by rw [h]) else .isFalse (by simp [h])
  | .error _, .ok _ => .isFalse (by simp)
  | .ok _, .error _ => .isFalse (by simp)

lemma fvtp_init_ok {ti : Bool} {hord : ℤ} {nord : Option ℤ}
    {damp_c : Option ℚ} {f : FiniteVolumeTransport}
    (h : fvtp_init ti hord nord damp_c = .ok f) :
    f.delnflux_enabled = (nord.isSome && damp_c.isSome) := by
  unfold fvtp_init at h
  split_ifs at h <;> cases h <;> rfl

/-! ## Concrete instances used by witnesses and counterexamples -/

/-- A small full domain for witness evaluation. -/
def dims0 : Dims := ⟨10, 10, 4⟩

/-- The identity kernel interpretation: external operations leave the
state unchanged. -/
def trivKernel : Ev → DynState → DynState := fun _ s => s

/-- An all-zero entry state. -/
def state0 : DynState :=
  ⟨zeroF3, zeroF3, zeroF3, zeroF3, zeroF3, zeroF3, fun _ => zeroF3⟩

/-- A d_sw sub-configuration with all damping knobs off. -/
def dswCfg0 : DGridShallowWaterLagrangianDynamicsConfig :=
  ⟨false, 0, 0, 0⟩

/-- A nonhydrostatic configuration accepted by the constructor
(`n_split = 2`, no vortex breeding). -/
def cfgOk : AcousticDynamicsConfig :=
  { d_ext := 0, beta := 0, use_logp := false, hydrostatic := false
    breed_vortex_inline := false, use_old_omega := false, rf_fast := false
    grid_type := 0, nord := 1, d_con := 1, k_split := 1, n_split := 2
    d_grid_shallow_water := dswCfg0 }

/-- The scheduler `acousticInit cfgOk 4` constructs. -/
def adOk : AcousticDynamics :=
  { config := cfgOk, nk_heat_dissipation := 0, do_del2cubed := false }

/-- Trivial interpretations of the external fvtp2d kernels. -/
def trivFVTPKernels : FVTPKernels :=
  { xppm := fun _ _ _ _ _ prev => prev
    yppm := fun _ _ _ _ _ prev => prev
    compute_x_flux_interior := fun _ _ _ q _ => q
    compute_y_flux_interior := fun _ _ _ q _ => q
    delnflux := fun _ fx fy _ => (fx, fy) }

/-- A small grid-indexing instance for witness evaluation. -/
def gIdx0 : GridIndexing := ⟨3, 3, 3, 0, 4, 4, 4⟩

/-! ## Claim theorems -/

/-- C1: constructing the acoustic-dynamics scheduler fails (raises) at
construction time exactly when the configuration is unimplemented
(`d_ext ≠ 0`, or `beta ≠ 0`, or `use_logp = True`); and for every
configuration the constructor accepts, no call of the scheduler
afterwards raises — in particular the call-time `use_logp` branch is
unreachable, so every call returns a final state. -/
theorem acoustic_config_failure_at_construction :
    (∀ (c : AcousticDynamicsConfig) (npz : ℕ),
      (∃ e, acousticInit c npz = .error e)
        ↔ (c.d_ext ≠ 0 ∨ c.beta ≠ 0 ∨ c.use_logp = true))
    ∧ (∀ (c : AcousticDynamicsConfig) (npz : ℕ) (ad : AcousticDynamics),
        acousticInit c npz = .ok ad →
        ∀ (d : Dims) (K : Ev → DynState → DynState) (s : DynState)
          (n_map : ℕ),
          ∃ s', acousticCall d K ad s n_map = .ok s') := by
  constructor
  · intro c npz
    constructor
    · rintro ⟨e, he⟩
      by_contra hcon
      push_neg at hcon
      obtain ⟨h1, h2, h3⟩ := hcon
      unfold acousticInit at he
      simp only [h1, h2] at he
      rw [if_neg (by simp), if_neg (by simp)] at he
      rw [if_neg (by simp [h3])] at he
      cases he
    · intro hbad
      unfold acousticInit
      split_ifs with h1 h2 h3
      · exact ⟨errDExt, rfl⟩
      · exact ⟨errBeta, rfl⟩
      · exact ⟨errUseLogp, rfl⟩
      · rcases hbad with hb | hb | hb <;> simp_all
  · intro c npz ad h d K s n_map
    obtain ⟨-, -, hlogp, hcfg, -, -⟩ := acousticInit_ok h
    have hsch := @acousticSchedule_eq ad (by rw [hcfg]; exact hlogp) n_map
    exact ⟨_, by unfold acousticCall; rw [hsch]⟩

/-- Witness for C1 at concrete inputs: a configuration with `d_ext = 1`
is rejected at construction, and a call of the scheduler built from the
accepted configuration `cfgOk` returns a final state. -/
theorem acoustic_config_failure_at_construction_witness :
    (∃ e, acousticInit { cfgOk with d_ext := 1 } 4 = .error e)
    ∧ (∃ s', acousticCall dims0 trivKernel adOk state0 1 = .ok s') :=
  ⟨(acoustic_config_failure_at_construction.1 { cfgOk with d_ext := 1 } 4).mpr
      (Or.inl (by norm_num [cfgOk])),
   acoustic_config_failure_at_construction.2 cfgOk 4 adOk (by decide)
      dims0 trivKernel state0 1⟩

/-- C4: the heat-dissipation vertical extent selector returns the full
column count `npz` if and only if `convert_ke` is enabled or
`vtdm4 > 1e-4`; otherwise it returns 0 when `d2_bg_k1 < 1e-3`, else 1
when `d2_bg_k2` is below its threshold, else 2.  (`2 < npz` makes the
full-column value distinguishable from the 0/1/2 sponge counts.) -/
theorem get_nk_heat_dissipation_policy
    (cfg : DGridShallowWaterLagrangianDynamicsConfig) (npz : ℕ)
    (h : 2 < npz) :
    (get_nk_heat_dissipation cfg npz = npz
       ↔ (cfg.convert_ke = true ∨ cfg.vtdm4 > mkRat 1 10000))
    ∧ (¬(cfg.convert_ke = true ∨ cfg.vtdm4 > mkRat 1 10000) →
        get_nk_heat_dissipation cfg npz
          = if cfg.d2_bg_k1 < mkRat 1 1000 then 0
            else if cfg.d2_bg_k2 < mkRat 1 1000 then 1 else 2) := by
  by_cases h1 : cfg.convert_ke = true ∨ cfg.vtdm4 > mkRat 1 10000
  · refine ⟨⟨fun _ => h1, fun _ => ?_⟩, fun hno => absurd h1 hno⟩
    unfold get_nk_heat_dissipation
    rw [if_pos h1]
  · constructor
    · constructor
      · intro hval
        rw [get_nk_heat_dissipation, if_neg h1] at hval
        split_ifs at hval <;> omega
      · intro hx
        exact absurd hx h1
    · intro _
      rw [get_nk_heat_dissipation, if_neg h1]

/-- Witness for C4 at a concrete configuration with the trigger off and
`npz = 5`. -/
theorem get_nk_heat_dissipation_policy_witness :
    (get_nk_heat_dissipation ⟨false, 0, 1, 0⟩ 5 = 5
       ↔ (false = true ∨ (0 : ℚ) > mkRat 1 10000))
    ∧ (¬(false = true ∨ (0 : ℚ) > mkRat 1 10000) →
        get_nk_heat_dissipation ⟨false, 0, 1, 0⟩ 5
          = if (1 : ℚ) < mkRat 1 1000 then 0
            else if (0 : ℚ) < mkRat 1 1000 then 1 else 2) :=
  get_nk_heat_dissipation_policy ⟨false, 0, 1, 0⟩ 5 (by decide)

/-- C9: the scheduler call is deterministic and stateless: it is a pure
function of the scheduler value, the kernel interpretation, the entry
state and `n_map`, so two runs from equal inputs produce equal final
states; the scheduler value itself is immutable across calls. -/
theorem acousticCall_two_run_equality
    (d : Dims) (K : Ev → DynState → DynState) (ad : AcousticDynamics)
    (n_map : ℕ) {s t : DynState} (h : s = t) :
    acousticCall d K ad s n_map = acousticCall d K ad t n_map := by
  rw [h]

/-- Witness for C9: two runs from the same concrete entry state agree. -/
theorem acousticCall_two_run_equality_witness :
    acousticCall dims0 trivKernel adOk state0 1
      = acousticCall dims0 trivKernel adOk state0 1 :=
  acousticCall_two_run_equality dims0 trivKernel adOk 1 rfl

/-- A hydrostatic configuration with `n_split = 5` and damping on
(`convert_ke` makes `nk_heat_dissipation = npz`, `d_con = 1 > 1e-5`). -/
def cfgC6 : AcousticDynamicsConfig :=
  { d_ext := 0, beta := 0, use_logp := false, hydrostatic := true
    breed_vortex_inline := false, use_old_omega := false, rf_fast := false
    grid_type := 4, nord := 0, d_con := 1, k_split := 1, n_split := 5
    d_grid_shallow_water := ⟨true, 0, 0, 0⟩ }

/-- The scheduler `acousticInit cfgC6 4` constructs. -/
def adC6 : AcousticDynamics :=
  { config := cfgC6, nk_heat_dissipation := 4, do_del2cubed := true }

/-- C6: for every accepted configuration with `n_split ≥ 1`, one call of
the scheduler executes the D-grid transport update (`d_sw`) exactly
`n_split` times, and the hyperdiffusion damping pass exactly once when
damping is enabled (zero times otherwise), strictly after the sub-step
loop: the trace splits into a prefix holding all `n_split` transport
updates and no damping pass, and a suffix holding no transport update
and exactly the conditional damping pass. -/
theorem acoustic_transport_and_damping_counts
    (c : AcousticDynamicsConfig) (npz : ℕ) (ad : AcousticDynamics)
    (n_map : ℕ) (hinit : acousticInit c npz = .ok ad)
    (_hn : 1 ≤ c.n_split) :
    ∃ A B, scheduleEvents ad n_map = A ++ B
      ∧ countOp Op.d_sw A = c.n_split
      ∧ countPost Op.hyperdiffusion A = 0
      ∧ countOp Op.d_sw B = 0
      ∧ countPost Op.hyperdiffusion B = (if ad.do_del2cubed then 1 else 0) := by
  obtain ⟨-, -, hlogp, hcfg, -, -⟩ := acousticInit_ok hinit
  have hsch := @scheduleEvents_eq ad (by rw [hcfg]; exact hlogp) n_map
  refine ⟨preList n_map
      ++ loopList ad.config (decide (n_map = ad.config.k_split))
           (List.range ad.config.n_split),
    postList ad, ?_, ?_, ?_, ?_, ?_⟩
  · rw [hsch]
  · rw [countOp_append, preList_countOp, loopList_countOp_d_sw,
      List.length_range, hcfg, Nat.zero_add]
  · rw [countPost_append, preList_countPost, loopList_countPost]
  · exact postList_countOp Op.d_sw ad
  · exact postList_countPost_hyper ad

/-- Witness for C6 at `cfgC6` (`n_split = 5`, damping enabled). -/
theorem acoustic_transport_and_damping_counts_witness :
    ∃ A B, scheduleEvents adC6 1 = A ++ B
      ∧ countOp Op.d_sw A = cfgC6.n_split
      ∧ countPost Op.hyperdiffusion A = 0
      ∧ countOp Op.d_sw B = 0
      ∧ countPost Op.hyperdiffusion B = (if adC6.do_del2cubed then 1 else 0) :=
  acoustic_transport_and_damping_counts cfgC6 4 adC6 1 (by decide) (by decide)

/-- A nonhydrostatic configuration with vortex breeding enabled and
`n_split = 2`. -/
def cfgC7 : AcousticDynamicsConfig :=
  { d_ext := 0, beta := 0, use_logp := false, hydrostatic := false
    breed_vortex_inline := true, use_old_omega := false, rf_fast := false
    grid_type := 4, nord := 0, d_con := 0, k_split := 1, n_split := 2
    d_grid_shallow_water := dswCfg0 }

/-- The scheduler `acousticInit cfgC7 4` constructs. -/
def adC7 : AcousticDynamics :=
  { config := cfgC7, nk_heat_dissipation := 0, do_del2cubed := false }

/-- Counterexample to C7 as stated: with `breed_vortex_inline` enabled
(an accepted configuration), the `remap_step`-guarded pressure-edge
update runs on sub-step 0 of a 2-sub-step call, not only on the final
sub-step. -/
theorem edge_pe_not_only_final_substep_cx :
    acousticInit cfgC7 4 = .ok adC7
    ∧ Ev.op Op.edge_pe 0 true ∈ scheduleEvents adC7 1
    ∧ (0 : ℕ) ≠ cfgC7.n_split - 1 := by decide

/-- C7 (amended): provided `breed_vortex_inline` is disabled, the
`remap_step`-guarded pressure-edge update (`edge_pe`) is invoked only on
the final sub-step `it = n_split - 1`; with `breed_vortex_inline`
enabled, `remap_step` holds on every sub-step, so the update runs each
sub-step (see the counterexample). -/
theorem edge_pe_only_final_substep
    (c : AcousticDynamicsConfig) (npz : ℕ) (ad : AcousticDynamics)
    (n_map : ℕ) (hinit : acousticInit c npz = .ok ad)
    (hbvi : c.breed_vortex_inline = false)
    {it : ℕ} {r : Bool}
    (hmem : Ev.op Op.edge_pe it r ∈ scheduleEvents ad n_map) :
    it = c.n_split - 1 := by
  obtain ⟨-, -, hlogp, hcfg, -, -⟩ := acousticInit_ok hinit
  rw [scheduleEvents_eq (by rw [hcfg]; exact hlogp)] at hmem
  rcases List.mem_append.mp hmem with hmem1 | hpost
  · rcases List.mem_append.mp hmem1 with hpre | hloop
    · exact absurd hpre (not_mem_of_countOp_zero (preList_countOp _ n_map))
    · obtain ⟨it', -, hsub⟩ := mem_loopList hloop
      obtain ⟨heq, hremap⟩ := edge_pe_mem_subStepList hsub
      rw [hcfg, hbvi] at hremap
      simp only [Bool.false_or, decide_eq_true_eq] at hremap
      rw [heq]
      exact hremap
  · exact absurd hpost (not_mem_of_countOp_zero (postList_countOp _ ad))

/-- Witness for C7 (amended) at `cfgOk` (`breed_vortex_inline` off,
`n_split = 2`): the concrete `edge_pe` event of the trace carries
sub-step index 1 = `n_split - 1`. -/
theorem edge_pe_only_final_substep_witness : (1 : ℕ) = cfgOk.n_split - 1 :=
  @edge_pe_only_final_substep cfgOk 4 adOk 1 (by decide) (by decide)
    1 true (by decide)

/-- A hydrostatic configuration whose heat-dissipation level count is
nonzero (`convert_ke`) but whose `d_con = 0` is below the `1e-5`
threshold. -/
def cfgC2 : AcousticDynamicsConfig :=
  { d_ext := 0, beta := 0, use_logp := false, hydrostatic := true
    breed_vortex_inline := false, use_old_omega := false, rf_fast := false
    grid_type := 4, nord := 0, d_con := 0, k_split := 1, n_split := 1
    d_grid_shallow_water := ⟨true, 0, 0, 0⟩ }

/-- The scheduler `acousticInit cfgC2 4` constructs. -/
def adC2 : AcousticDynamics :=
  { config := cfgC2, nk_heat_dissipation := 4, do_del2cubed := false }

/-- Counterexample to C2 as stated: with `nk_heat_dissipation = 4 ≠ 0`
but `d_con = 0`, the claimed disjunctive trigger holds, yet the call
applies no hyperdiffusion pass — the code conjoins the two conditions
(`and`, dyn_core.py line 619), it does not disjoin them. -/
theorem hyperdiffusion_trigger_not_disjunction_cx :
    acousticInit cfgC2 4 = .ok adC2
    ∧ (adC2.nk_heat_dissipation ≠ 0 ∨ adC2.config.d_con > mkRat 1 100000)
    ∧ Ev.post Op.hyperdiffusion ∉ scheduleEvents adC2 1 := by decide

/-- C2 (amended): one call of the scheduler applies the post-loop
hyperdiffusive damping pass to `heat_source` if and only if the
heat-dissipation level count is nonzero AND the heat-source damping
coefficient `d_con` exceeds `1e-5` (the code's trigger is the
conjunction of the two conditions, not their disjunction). -/
theorem hyperdiffusion_applied_iff_conjunction
    (c : AcousticDynamicsConfig) (npz : ℕ) (ad : AcousticDynamics)
    (n_map : ℕ) (hinit : acousticInit c npz = .ok ad) :
    Ev.post Op.hyperdiffusion ∈ scheduleEvents ad n_map
      ↔ (get_nk_heat_dissipation c.d_grid_shallow_water npz ≠ 0
          ∧ c.d_con > mkRat 1 100000) := by
  obtain ⟨-, -, hlogp, hcfg, -, hdo⟩ := acousticInit_ok hinit
  rw [scheduleEvents_eq (by rw [hcfg]; exact hlogp)]
  have hiff : ad.do_del2cubed = true
      ↔ (get_nk_heat_dissipation c.d_grid_shallow_water npz ≠ 0
          ∧ c.d_con > mkRat 1 100000) := by
    rw [hdo]
    simp [Bool.and_eq_true]
  constructor
  · intro hmem
    rcases List.mem_append.mp hmem with hmem1 | hpost
    · rcases List.mem_append.mp hmem1 with hpre | hloop
      · exact absurd hpre (not_mem_of_countPost_zero (preList_countPost _ n_map))
      · exact absurd hloop
          (not_mem_of_countPost_zero (loopList_countPost _ _ _ _))
    · unfold postList at hpost
      by_cases hdo2 : ad.do_del2cubed
      · exact hiff.mp hdo2
      · simp [hdo2] at hpost
  · intro hrhs
    have hdo2 : ad.do_del2cubed = true := hiff.mpr hrhs
    refine List.mem_append.mpr (Or.inr ?_)
    unfold postList
    rw [if_pos hdo2]
    simp

/-- Witness for C2 (amended) at `cfgC6` (both trigger conditions hold,
so the damping pass is scheduled). -/
theorem hyperdiffusion_applied_iff_conjunction_witness :
    Ev.post Op.hyperdiffusion ∈ scheduleEvents adC6 1
      ↔ (get_nk_heat_dissipation cfgC6.d_grid_shallow_water 4 ≠ 0
          ∧ cfgC6.d_con > mkRat 1 100000) :=
  hyperdiffusion_applied_iff_conjunction cfgC6 4 adC6 1 (by decide)

/-- C10: at the start of every scheduler call the fifth scheduled event
(after the three halo starts and one wait, which touch no accumulator)
is the `zero_data` stencil invoked with `first_timestep = (n_map == 1)`;
and the `zero_data` step zeroes `mfxd`, `mfyd`, `cxd`, `cyd` over the
full domain unconditionally, while `heat_source` and `diss_estd` are
zeroed exactly when `first_timestep` holds and `(i, j)` lies in the
interior region `[3:-3, 3:-3]` — on later remap steps they keep their
previous values. -/
theorem zero_data_entry_semantics :
    (∀ (c : AcousticDynamicsConfig) (npz : ℕ) (ad : AcousticDynamics)
       (n_map : ℕ), acousticInit c npz = .ok ad →
       (scheduleEvents ad n_map).take 5
         = [Ev.haloStart Halo.q_con_cappa, Ev.haloStart Halo.delp_pt,
            Ev.haloStart Halo.u_v, Ev.haloWait Halo.q_con_cappa,
            Ev.zeroData (decide (n_map = 1))])
    ∧ (∀ (d : Dims) (K : Ev → DynState → DynState) (s : DynState)
         (first : Bool) (i j k : ℤ),
        ((dynStep d K s (Ev.zeroData first)).mfxd i j k
           = if inFullDomain d i j k then 0 else s.mfxd i j k)
        ∧ ((dynStep d K s (Ev.zeroData first)).mfyd i j k
           = if inFullDomain d i j k then 0 else s.mfyd i j k)
        ∧ ((dynStep d K s (Ev.zeroData first)).cxd i j k
           = if inFullDomain d i j k then 0 else s.cxd i j k)
        ∧ ((dynStep d K s (Ev.zeroData first)).cyd i j k
           = if inFullDomain d i j k then 0 else s.cyd i j k)
        ∧ ((dynStep d K s (Ev.zeroData first)).heat_source i j k
           = if first = true ∧ inFullDomain d i j k ∧ inInterior33 d i j
             then 0 else s.heat_source i j k)
        ∧ ((dynStep d K s (Ev.zeroData first)).diss_estd i j k
           = if first = true ∧ inFullDomain d i j k ∧ inInterior33 d i j
             then 0 else s.diss_estd i j k)) := by
  constructor
  · intro c npz ad n_map hinit
    obtain ⟨-, -, hlogp, hcfg, -, -⟩ := acousticInit_ok hinit
    rw [scheduleEvents_eq (by rw [hcfg]; exact hlogp), List.append_assoc]
    rfl
  · intro d K s first i j k
    exact ⟨rfl, rfl, rfl, rfl, rfl, rfl⟩

/-- Witness for C10: on the second remap step of `adOk` the fifth event
is `zero_data` with `first_timestep = false`, and the `zero_data` step
at a concrete point zeroes `mfxd` while keeping `heat_source`. -/
theorem zero_data_entry_semantics_witness :
    ((scheduleEvents adOk 2).take 5
       = [Ev.haloStart Halo.q_con_cappa, Ev.haloStart Halo.delp_pt,
          Ev.haloStart Halo.u_v, Ev.haloWait Halo.q_con_cappa,
          Ev.zeroData (decide ((2 : ℕ) = 1))])
    ∧ ((dynStep dims0 trivKernel state0 (Ev.zeroData false)).mfxd 1 1 1
        = if inFullDomain dims0 1 1 1 then 0 else state0.mfxd 1 1 1)
    ∧ ((dynStep dims0 trivKernel state0 (Ev.zeroData false)).heat_source 4 4 1
        = if false = true ∧ inFullDomain dims0 4 4 1 ∧ inInterior33 dims0 4 4
          then 0 else state0.heat_source 4 4 1) :=
  ⟨zero_data_entry_semantics.1 cfgOk 4 adOk 2 (by decide),
   (zero_data_entry_semantics.2 dims0 trivKernel state0 false 1 1 1).1,
   (zero_data_entry_semantics.2 dims0 trivKernel state0 false 4 4 1).2.2.2.2.1⟩

/-- C3: for every call of the Horizontal Transport Operator in which the
hyperdiffusive flux damper is enabled (`nord` and `damp_c` were given to
the constructor) and a mass-flux override is passed while `mass` is
`None`, the call raises immediately with the flux outputs untouched
(the result is exactly the error with `q_x_flux`, `q_y_flux` as they
were at entry); in every other combination of the optional arguments the
call does not raise. -/
theorem fvtp_mass_flux_guard
    (ti : Bool) (hord : ℤ) (nord : Option ℤ) (damp_c : Option ℚ)
    (f : FiniteVolumeTransport)
    (hinit : fvtp_init ti hord nord damp_c = .ok f)
    (ker : FVTPKernels) (g : GridIndexing) (area dxa dya : F2)
    (q_base qx qy crx cry xaf yaf qxf qyf : F3)
    (xm ym mass : Option F3) :
    (fvtp_call ker g area dxa dya f q_base qx qy crx cry xaf yaf qxf qyf
        xm ym mass
       = (some errMassFlux, qxf, qyf)
     ↔ (nord.isSome = true ∧ damp_c.isSome = true ∧ mass = none
         ∧ (xm ≠ none ∨ ym ≠ none)))
    ∧ (¬(nord.isSome = true ∧ damp_c.isSome = true ∧ mass = none
          ∧ (xm ≠ none ∨ ym ≠ none)) →
       (fvtp_call ker g area dxa dya f q_base qx qy crx cry xaf yaf qxf qyf
          xm ym mass).1 = none) := by
  have hd := fvtp_init_ok hinit
  have hguard :
      (f.delnflux_enabled && mass.isNone && (xm.isSome || ym.isSome)) = true
        ↔ (nord.isSome = true ∧ damp_c.isSome = true ∧ mass = none
            ∧ (xm ≠ none ∨ ym ≠ none)) := by
    rw [hd]
    simp [Bool.and_eq_true, Bool.or_eq_true, Option.isNone_iff_eq_none,
      Option.isSome_iff_ne_none, and_assoc]
  by_cases hb :
      (f.delnflux_enabled && mass.isNone && (xm.isSome || ym.isSome)) = true
  · constructor
    · exact ⟨fun _ => hguard.mp hb, fun _ => by unfold fvtp_call; rw [if_pos hb]⟩
    · intro hno
      exact absurd (hguard.mp hb) hno
  · have h1 : (fvtp_call ker g area dxa dya f q_base qx qy crx cry xaf yaf
        qxf qyf xm ym mass).1 = none := by
      unfold fvtp_call
      rw [if_neg hb]
      cases f.variant <;> by_cases hdn : f.delnflux_enabled <;> simp [hdn]
    constructor
    · constructor
      · intro heq
        rw [heq] at h1
        cases h1
      · intro hc
        exact absurd (hguard.mpr hc) hb
    · intro _
      exact h1

/-- The transport operator `fvtp_init false 8 (some 2) (some 1)`
constructs (edge variant, damper enabled). -/
def fvtpW : FiniteVolumeTransport :=
  { variant := FVTPVariant.edge 8 8, delnflux_enabled := true }

/-- Witness for C3 at concrete inputs: the damper-enabled edge operator,
called with an x-mass-flux override and no `mass`, raises with the flux
storages unchanged. -/
theorem fvtp_mass_flux_guard_witness :
    (fvtp_call trivFVTPKernels gIdx0 (fun _ _ => 1) (fun _ _ => 1)
        (fun _ _ => 1) fvtpW zeroF3 zeroF3 zeroF3 zeroF3 zeroF3 zeroF3
        zeroF3 zeroF3 zeroF3 (some zeroF3) none none
       = (some errMassFlux, zeroF3, zeroF3)
     ↔ ((some (2 : ℤ)).isSome = true ∧ (some (1 : ℚ)).isSome = true
         ∧ (none : Option F3) = none
         ∧ ((some zeroF3 : Option F3) ≠ none ∨ (none : Option F3) ≠ none)))
    ∧ (¬((some (2 : ℤ)).isSome = true ∧ (some (1 : ℚ)).isSome = true
          ∧ (none : Option F3) = none
          ∧ ((some zeroF3 : Option F3) ≠ none ∨ (none : Option F3) ≠ none)) →
       (fvtp_call trivFVTPKernels gIdx0 (fun _ _ => 1) (fun _ _ => 1)
          (fun _ _ => 1) fvtpW zeroF3 zeroF3 zeroF3 zeroF3 zeroF3 zeroF3
          zeroF3 zeroF3 zeroF3 (some zeroF3) none none).1 = none) :=
  fvtp_mass_flux_guard false 8 (some 2) (some 1) fvtpW rfl
    trivFVTPKernels gIdx0 (fun _ _ => 1) (fun _ _ => 1) (fun _ _ => 1)
    zeroF3 zeroF3 zeroF3 zeroF3 zeroF3 zeroF3 zeroF3 zeroF3 zeroF3
    (some zeroF3) none none

/-- Counterexample to C5 as stated: the interior variant cannot even be
constructed with `hord = 10` — `_FiniteVolumeTransportInteriorStencils`
asserts `hord == 8` (fvtp2d.py line 541) — so on tile-interior ranks the
`hord = 10` operator produces no fluxes at all, and the claimed
equivalence fails for the interior variant. -/
theorem fvtp_interior_hord10_rejected_cx :
    fvtp_init true 10 none none = .error errInteriorHord := by decide

/-- C5 (amended): for the edge variant, the operator constructed with
`hord = 10` produces, on every input, exactly the fluxes of the operator
with inner reconstruction order forced to 8 and outer order 10; the
interior variant rejects `hord = 10` at construction (`assert hord == 8`),
so the inner-order substitution is unreachable there. -/
theorem fvtp_hord10_inner8_equiv :
    (∀ (nord : Option ℤ) (damp_c : Option ℚ) (f : FiniteVolumeTransport),
      fvtp_init false 10 nord damp_c = .ok f →
      ∀ (ker : FVTPKernels) (g : GridIndexing) (area dxa dya : F2)
        (q_base qx qy crx cry xaf yaf qxf qyf : F3)
        (xm ym mass : Option F3),
        fvtp_call ker g area dxa dya f q_base qx qy crx cry xaf yaf qxf qyf
            xm ym mass
          = fvtp_call ker g area dxa dya
              { variant := FVTPVariant.edge 8 10
                delnflux_enabled := f.delnflux_enabled }
              q_base qx qy crx cry xaf yaf qxf qyf xm ym mass)
    ∧ (∀ (nord : Option ℤ) (damp_c : Option ℚ),
        fvtp_init true 10 nord damp_c = .error errInteriorHord) := by
  constructor
  · intro nord damp_c f hf ker g area dxa dya q_base qx qy crx cry xaf yaf
      qxf qyf xm ym mass
    have hfval : f = { variant := FVTPVariant.edge 8 10
                       delnflux_enabled := nord.isSome && damp_c.isSome } := by
      unfold fvtp_init at hf
      rw [if_neg (by simp)] at hf
      cases hf
      rfl
    rw [hfval]
  · intro nord damp_c
    rfl

/-- Witness for C5 (amended): the edge operator built at `hord = 10`
with the damper off agrees with the forced (inner 8, outer 10) operator
on concrete inputs, and the interior construction at `hord = 10` is
rejected. -/
theorem fvtp_hord10_inner8_equiv_witness :
    (fvtp_call trivFVTPKernels gIdx0 (fun _ _ => 1) (fun _ _ => 1)
        (fun _ _ => 1)
        { variant := FVTPVariant.edge 8 10, delnflux_enabled := false }
        zeroF3 zeroF3 zeroF3 zeroF3 zeroF3 zeroF3 zeroF3 zeroF3 zeroF3
        none none none
      = fvtp_call trivFVTPKernels gIdx0 (fun _ _ => 1) (fun _ _ => 1)
          (fun _ _ => 1)
          { variant := FVTPVariant.edge 8 10, delnflux_enabled := false }
          zeroF3 zeroF3 zeroF3 zeroF3 zeroF3 zeroF3 zeroF3 zeroF3 zeroF3
          none none none)
    ∧ fvtp_init true 10 none none = .error errInteriorHord :=
  ⟨fvtp_hord10_inner8_equiv.1 none none
      { variant := FVTPVariant.edge 8 10, delnflux_enabled := false } rfl
      trivFVTPKernels gIdx0 (fun _ _ => 1) (fun _ _ => 1) (fun _ _ => 1)
      zeroF3 zeroF3 zeroF3 zeroF3 zeroF3 zeroF3 zeroF3 zeroF3 zeroF3
      none none none,
   fvtp_hord10_inner8_equiv.2 none none⟩

lemma pln_halo_pet_const_inc (a : ℕ → ℚ) (p : ℚ) :
    ∀ m : ℕ, pln_halo_pet a (fun _ => p) m = a 0 + m * p := by
  intro m
  induction m with
  | zero => simp [pln_halo_pet]
  | succ n ih =>
    rw [pln_halo_pet, ih]
    push_cast
    ring

/-- Counterexample to C8 as stated: the wrapper's invocation does not
pass its arguments in the order the stencil definition declares them.
At `ptop = 1` and a `delp` column with values `(2, 3, 4, ...)`, the
actual call (which binds `delp` to the `ptop` slot and `ptop` to the
`delp` slot) writes `pk3 = log 4` at halo point `(1, 4)` level 2, while
the declared-order invocation the claim describes would write `log 6`
(here `plog = id` exposes the accumulated pressures 4 ≠ 6). -/
theorem pln_halo_argument_order_cx :
    (PLNHalo_call 3 6 3 6 3 id (fun _ _ => 0) (fun _ _ _ => 0)
        (fun _ _ k => (k : ℚ) + 2) 1).2 1 4 2 = 4
    ∧ (PLNHalo_call_as_claimed 3 6 3 6 3 id (fun _ _ => 0) (fun _ _ _ => 0)
        (fun _ _ k => (k : ℚ) + 2) 1).2 1 4 2 = 6 := by
  constructor <;>
    norm_num [PLNHalo_call, PLNHalo_call_as_claimed, pln_halo, pln_halo_pet,
      pln_halo_region]

/-- C8 (amended): the `PLNHalo` wrapper invokes the stencil with
arguments `(pet_tmp, delp, pk3, ptop)` against the declared parameter
order `(pet, ptop, pk3, delp)`, so the second and fourth arguments are
swapped: in the two-cell-deep halo strips the interface pressure is
seeded with the level-0 value of `delp` at the top interval and
accumulates the constant `ptop` downward, giving
`pk3 i j k = log (delp i j 0 + k * ptop)` at levels `1 ≤ k ≤ nz`, while
level 0 of `pk3` and all points outside the strips are unchanged. -/
theorem pln_halo_swapped_arguments
    (local_is local_ie local_js local_je : ℤ) (nz : ℕ) (plog : ℚ → ℚ)
    (pet_tmp : ℤ → ℤ → ℚ) (pk3 : ColF) (delp : ColF) (ptop : ℚ)
    (i j : ℤ) (k : ℕ)
    (hin : pln_halo_region local_is local_ie local_js local_je i j = true)
    (hk1 : 1 ≤ k) (hk2 : k ≤ nz) :
    ((PLNHalo_call local_is local_ie local_js local_je nz plog pet_tmp pk3
        delp ptop).2 i j k
       = plog (delp i j 0 + k * ptop))
    ∧ ((PLNHalo_call local_is local_ie local_js local_je nz plog pet_tmp pk3
        delp ptop).2 i j 0
       = pk3 i j 0) := by
  constructor
  · simp only [PLNHalo_call, pln_halo]
    rw [if_pos (by simp [hin, hk1, hk2])]
    rw [pln_halo_pet_const_inc]
  · simp only [PLNHalo_call, pln_halo]
    rw [if_neg (by simp)]

/-- Witness for C8 (amended) at a concrete halo point: with
`delp = 5` at the top level, `ptop = 2` and `plog = id`, the wrapper
writes `pk3 = 5 + 2·2` at level 2 and leaves level 0 alone. -/
theorem pln_halo_swapped_arguments_witness :
    ((PLNHalo_call 3 6 3 6 3 id (fun _ _ => 0) (fun _ _ _ => 7)
        (fun _ _ _ => 5) 2).2 1 4 2
       = id ((5 : ℚ) + (2 : ℕ) * 2))
    ∧ ((PLNHalo_call 3 6 3 6 3 id (fun _ _ => 0) (fun _ _ _ => 7)
        (fun _ _ _ => 5) 2).2 1 4 0
       = 7) :=
  pln_halo_swapped_arguments 3 6 3 6 3 id (fun _ _ => 0) (fun _ _ _ => 7)
    (fun _ _ _ => 5) 2 1 4 2 (by decide) (by decide) (by decide)
